import Mathlib

/-!
Verification development for the f5-conversation-tts repository.

The pipeline (src/AgentF5TTSChunk.py, src/create_conversation.py,
src/conversational_agent.py) parses speaker/emotion tags from text lines,
resolves reference voices (explicit dictionary or round-robin over a
reference corpus), synthesizes one audio file per line via an external TTS
engine, and stitches the per-line files into a single output with ffmpeg.

We embed the orchestration logic shallowly: the external effects (engine
inference success, file existence, subprocess success) become Boolean
oracles, and each run is a pure function from inputs and oracles to the
observable trace of actions, collected temporary files, and the stitch
result.
-/

set_option maxHeartbeats 1000000

namespace F5Conv

/-- First-match association-list lookup, modelling a Python dict built by
assignments with distinct keys (dict.get / dict subscript). -/
def lookupAssoc {α β : Type} [DecidableEq α] : List (α × β) → α → Option β
  | [], _ => none
  | (k, v) :: rest, key => if k = key then some v else lookupAssoc rest key

/-- The ASCII whitespace characters matched by the Python regex class
backslash-s and stripped by str.strip. -/
def isPySpace (c : Char) : Bool :=
  c = ' ' || c = '\t' || c = '\n' || c = '\r' || c = '\x0b' || c = '\x0c'

/-- Python str.strip on a character list: drop whitespace from both ends. -/
def pyStrip (l : List Char) : List Char :=
  ((l.dropWhile isPySpace).reverse.dropWhile isPySpace).reverse

/-- Match a literal pattern at the start of the input, returning the rest
after the pattern on success. -/
def stripLit : List Char → List Char → Option (List Char)
  | [], s => some s
  | _ :: _, [] => none
  | p :: ps, c :: cs => if p = c then stripLit ps cs else none

/-- Lazy scan of the regex fragment dot-star-lazy followed by a literal
pattern: consume the minimal number of non-newline characters until the
literal matches, returning the consumed group and the rest after the
literal.  The dot of the Python regex does not match a newline. -/
def lazyUntil (pat : List Char) : List Char → Option (List Char × List Char)
  | [] =>
    match stripLit pat [] with
    | some r => some ([], r)
    | none => none
  | c :: rest =>
    match stripLit pat (c :: rest) with
    | some r => some ([], r)
    | none =>
      if c = '\n' then none
      else
        match lazyUntil pat rest with
        | some (g, r) => some (c :: g, r)
        | none => none

/-- Attempt of the search regex of _determine_speaker_emotion at the
current position: the pattern bracket-speaker-colon, lazy group one,
comma-space-emotion-colon, lazy group two, closing bracket.  On success
return the two captured groups. -/
def matchTagAt (s : List Char) : Option (List Char × List Char) :=
  match stripLit "[speaker:".data s with
  | none => none
  | some r1 =>
    match lazyUntil ", emotion:".data r1 with
    | none => none
    | some (g1, r2) =>
      match lazyUntil "]".data r2 with
      | none => none
      | some (g2, _) => some (g1, g2)

/-- re.search of the tag pattern: try each start position left to right. -/
def searchTag : List Char → Option (List Char × List Char)
  | [] => none
  | c :: rest =>
    match matchTagAt (c :: rest) with
    | some r => some r
    | none => searchTag rest

/-- AgentF5TTS._determine_speaker_emotion: extract speaker and emotion via
the regex, stripping each captured group; default to speaker1 / neutral
when the pattern does not occur. -/
def determineSpeakerEmotion (text : String) : String × String :=
  match searchTag text.data with
  | some (g1, g2) => (String.mk (pyStrip g1), String.mk (pyStrip g2))
  | none => ("speaker1", "neutral")

/-- Attempt of the substitution regex (bracket-speaker-colon, lazy any,
closing bracket, then greedy whitespace) at the current position,
returning the rest of the input after the matched region. -/
def matchSubAt (s : List Char) : Option (List Char) :=
  match stripLit "[speaker:".data s with
  | none => none
  | some r1 =>
    match lazyUntil "]".data r1 with
    | none => none
    | some (_, r2) => some (r2.dropWhile isPySpace)

/-- Global re.sub with empty replacement, fuelled by the input length:
scan left to right, removing each non-overlapping match and continuing
after it.  Each match consumes at least the nine characters of the literal
prefix, so fuel equal to the input length always suffices. -/
def subSpeakerTagAux : Nat → List Char → List Char
  | 0, s => s
  | _ + 1, [] => []
  | fuel + 1, c :: rest =>
    match matchSubAt (c :: rest) with
    | some r => subSpeakerTagAux fuel r
    | none => c :: subSpeakerTagAux fuel rest

/-- The substitution applied by generate_emotion_speech to each line before
synthesis: remove every speaker tag together with the whitespace that
follows it. -/
def subSpeakerTag (s : String) : String :=
  String.mk (subSpeakerTagAux s.data.length s.data)

/-- Name of the per-line temporary wav file for zero-based line index i:
the output file name, the literal _line, the one-based line number, .wav. -/
def tempName (outputAudioFile : String) (i : Nat) : String :=
  outputAudioFile ++ "_line" ++ toString (i + 1) ++ ".wav"

/-- Observable per-line actions of a synthesis run: an engine inference
call (with its reference audio, generation text and target file), a
time.sleep call, or a logged error line. -/
inductive Action : Type
  | infer (refAudio genText outFile : String)
  | sleep (seconds : Nat)
  | logError (msg : String)
deriving DecidableEq

/-- Whether an action is a time.sleep call. -/
def isSleep : Action → Bool
  | .sleep _ => true
  | _ => false

/-- Whether an action is an engine inference call. -/
def isInfer : Action → Bool
  | .infer _ _ _ => true
  | _ => false

/-- Number of time.sleep calls in a trace. -/
def sleepCount (tr : List Action) : Nat :=
  (tr.filter isSleep).length

/-- Number of engine inference calls in a trace. -/
def inferCount (tr : List Action) : Nat :=
  (tr.filter isInfer).length

/-- The ffmpeg invocations of _combine_audio_files: the concat run over the
manifest and the mp3 transcode run with its source and destination. -/
inductive Cmd : Type
  | ffmpegConcat (listFile outFile : String)
  | ffmpegMp3 (src dst : String)
deriving DecidableEq

/-- The error conditions surfaced by _combine_audio_files: the logged
no-audio-files-to-combine message on an empty segment list, and the logged
error-combining message from the generic except clause. -/
inductive StitchErr : Type
  | noSegments
  | combineError
deriving DecidableEq

/-- Observable outcome of _combine_audio_files: the manifest contents if
the manifest file was written, the subprocess invocations issued, the
files removed by the cleanup loop, the logged error if any, and whether
the concat output file was produced. -/
structure CombineResult : Type where
  manifest : Option (List String)
  cmds : List Cmd
  removed : List String
  errorLog : Option StitchErr
  outputProduced : Bool
deriving DecidableEq

/-- Python str.replace of the literal .wav by .mp3, every occurrence,
scanning left to right, fuelled by the input length: each match consumes
four characters, so fuel equal to the input length always suffices. -/
def replaceWavMp3Aux : Nat → List Char → List Char
  | 0, s => s
  | _ + 1, [] => []
  | fuel + 1, c :: rest =>
    if ".wav".data.isPrefixOf (c :: rest) then
      ".mp3".data ++ replaceWavMp3Aux fuel (rest.drop 3)
    else
      c :: replaceWavMp3Aux fuel rest

/-- Python str.replace of the literal .wav by .mp3 on a character list. -/
def replaceWavMp3 (s : List Char) : List Char :=
  replaceWavMp3Aux s.length s

/-- Whether a pattern occurs as a contiguous substring. -/
def containsSub (pat : List Char) : List Char → Bool
  | [] => pat.isEmpty
  | c :: rest => pat.isPrefixOf (c :: rest) || containsSub pat rest

/-- AgentF5TTS._combine_audio_files.  If the list of temporary files is
empty it logs the no-segments error and returns without touching the
filesystem.  Otherwise it writes the manifest file_list.txt, then inside a
try block runs the ffmpeg concat (success given by the concatOk oracle),
optionally runs the mp3 transcode whose destination is the output name
with .wav replaced by .mp3 (success given by the mp3Ok oracle), and only
then removes every temporary file and the manifest.  An exception from
either subprocess jumps to the except clause, which logs and returns,
skipping the removals. -/
def combineAudioFiles (concatOk mp3Ok : Bool) (tempFiles : List String)
    (outputAudioFile : String) (convertToMp3 : Bool) : CombineResult :=
  if tempFiles.isEmpty then
    { manifest := none, cmds := [], removed := [],
      errorLog := some .noSegments, outputProduced := false }
  else
    let concatCmd := Cmd.ffmpegConcat "file_list.txt" outputAudioFile
    if concatOk then
      if convertToMp3 then
        let mp3Output := String.mk (replaceWavMp3 outputAudioFile.data)
        let mp3Cmd := Cmd.ffmpegMp3 outputAudioFile mp3Output
        if mp3Ok then
          { manifest := some tempFiles, cmds := [concatCmd, mp3Cmd],
            removed := tempFiles ++ ["file_list.txt"],
            errorLog := none, outputProduced := true }
        else
          { manifest := some tempFiles, cmds := [concatCmd, mp3Cmd],
            removed := [], errorLog := some .combineError,
            outputProduced := true }
      else
        { manifest := some tempFiles, cmds := [concatCmd],
          removed := tempFiles ++ ["file_list.txt"],
          errorLog := none, outputProduced := true }
    else
      { manifest := some tempFiles, cmds := [concatCmd],
        removed := [], errorLog := some .combineError,
        outputProduced := false }

/-- The AgentF5TTS state the orchestration code reads: the configured
inter-call delay in seconds (self.delay). -/
structure Agent : Type where
  delay : Nat
deriving DecidableEq

/-- Environment of a generate_emotion_speech run: the explicit reference
dictionary keyed by speaker and emotion, the os.path.exists oracle, the
per-line engine success oracle, and the configured delay. -/
structure EmoEnv : Type where
  refs : List ((String × String) × String)
  fileFound : String → Bool
  inferOk : Nat → Bool
  delay : Nat

/-- Resolution of the reference audio for one line, following lines 51 to
56 of AgentF5TTSChunk.py: look the parsed speaker and emotion pair up in
the dictionary; a missing key, a falsy (empty) path, or a path that does
not exist on disk all lead to the skip branch. -/
def refResolved (env : EmoEnv) (line : String) : Option String :=
  match lookupAssoc env.refs (determineSpeakerEmotion line) with
  | none => none
  | some ra => if ra = "" then none else if env.fileFound ra then some ra else none

/-- Whether line number i both resolves a reference and has a successful
engine call, i.e. contributes a temporary file. -/
def lineSucceeds (env : EmoEnv) (i : Nat) (line : String) : Bool :=
  (refResolved env line).isSome && env.inferOk i

/-- One iteration of the generate_emotion_speech loop at zero-based index
i: on resolution failure log and continue; otherwise call the engine on
the tag-stripped text writing the per-line temporary file, then either
append the file and sleep for the configured delay, or catch the engine
exception and log it. -/
def emoStep (env : EmoEnv) (out : String) (i : Nat) (line : String) :
    List String × List Action :=
  match refResolved env line with
  | none => ([], [.logError "Reference audio not found"])
  | some ra =>
    let genText := subSpeakerTag line
    let temp := tempName out i
    if env.inferOk i then
      ([temp], [.infer ra genText temp, .sleep env.delay])
    else
      ([], [.infer ra genText temp, .logError "Error generating speech"])

/-- The generate_emotion_speech loop over the non-blank lines, starting at
index i, collecting temporary files and the action trace in order. -/
def emoLoop (env : EmoEnv) (out : String) : List String → Nat →
    List String × List Action
  | [], _ => ([], [])
  | line :: rest, i =>
    let s := emoStep env out i line
    let r := emoLoop env out rest (i + 1)
    (s.1 ++ r.1, s.2 ++ r.2)

/-- Observable outcome of a full generate_emotion_speech or
generate_speech run past the input checks: the collected temporary files,
the synthesis trace, and the stitch result. -/
structure RunResult : Type where
  tempFiles : List String
  trace : List Action
  combine : CombineResult
deriving DecidableEq

/-- AgentF5TTS.generate_emotion_speech on the already-read non-blank
lines: none models the early return on an empty line list; otherwise the
per-line loop runs from index zero and the result is handed to
_combine_audio_files. -/
def generateEmotionSpeech (env : EmoEnv) (lines : List String)
    (out : String) (convertToMp3 concatOk mp3Ok : Bool) : Option RunResult :=
  if lines.isEmpty then none
  else
    let r := emoLoop env out lines 0
    some ⟨r.1, r.2, combineAudioFiles concatOk mp3Ok r.1 out convertToMp3⟩

/-- One iteration of the generate_speech loop at zero-based index i: skip
with a log when the single reference audio is falsy or absent, otherwise
call the engine; note that, unlike the emotion path, no time.sleep call
appears anywhere in this loop. -/
def plainStep (refAudio : String) (fileFound : String → Bool)
    (inferOk : Nat → Bool) (out : String) (i : Nat) (line : String) :
    List String × List Action :=
  if refAudio = "" || !fileFound refAudio then
    ([], [.logError "Reference audio not found"])
  else
    let temp := tempName out i
    if inferOk i then
      ([temp], [.infer refAudio line temp])
    else
      ([], [.infer refAudio line temp, .logError "Error generating speech"])

/-- The generate_speech loop over the non-blank lines from index i. -/
def plainLoop (refAudio : String) (fileFound : String → Bool)
    (inferOk : Nat → Bool) (out : String) : List String → Nat →
    List String × List Action
  | [], _ => ([], [])
  | line :: rest, i =>
    let s := plainStep refAudio fileFound inferOk out i line
    let r := plainLoop refAudio fileFound inferOk out rest (i + 1)
    (s.1 ++ r.1, s.2 ++ r.2)

/-- AgentF5TTS.generate_speech on the already-read non-blank lines.  The
agent delay field is in scope (self.delay) but the body never reads it:
the plain path has no pause between engine calls. -/
def generateSpeech (agent : Agent) (refAudio : String)
    (fileFound : String → Bool) (inferOk : Nat → Bool)
    (lines : List String) (out : String)
    (convertToMp3 concatOk mp3Ok : Bool) : Option RunResult :=
  if lines.isEmpty then none
  else
    let _ := agent
    let r := plainLoop refAudio fileFound inferOk out lines 0
    some ⟨r.1, r.2, combineAudioFiles concatOk mp3Ok r.1 out convertToMp3⟩

/-- One record of the reference corpus as iterated by
assign_speaker_voices: the audio array (opaque identifier here) and the
reference transcript. -/
structure DatasetItem : Type where
  audio : String
  text : String
deriving DecidableEq

/-- assign_speaker_voices from create_conversation.py and
conversational_agent.py (the two copies are identical).  The argument
speakerIds is the value of list(set(speakers)): deduplicated, in an
implementation-defined iteration order that the code does not stabilize.
The loop enumerates it and, unless the extracted reference list is empty
(a loop-invariant condition, so modelled once per entry), assigns
references and texts by index modulo the corpus size, building the two
dictionaries in insertion order. -/
def assignSpeakerVoices (speakerIds : List String)
    (dataset : List DatasetItem) :
    List (String × String) × List (String × String) :=
  let availableReferences := dataset.map DatasetItem.audio
  let availableTexts := dataset.map DatasetItem.text
  if availableReferences.isEmpty then ([], [])
  else
    (speakerIds.enum.map fun p =>
      (p.2, availableReferences.getD (p.1 % availableReferences.length) ""),
     speakerIds.enum.map fun p =>
      (p.2, availableTexts.getD (p.1 % availableTexts.length) ""))

/-- The uncaught exceptions of the conversation flow: the KeyError of a
dict subscript with a missing speaker, and the TypeError of a call with
an unexpected keyword argument. -/
inductive PyError : Type
  | keyError
  | typeError
deriving DecidableEq

/-- One row of the dialog dataframe as read by
generate_conversation_audio. -/
structure Row : Type where
  speaker : String
  translatedSentence : String
  dialog : String
  turn : String
deriving DecidableEq

/-- The per-row output file path built by generate_conversation_audio. -/
def outputName (outputDir : String) (r : Row) : String :=
  outputDir ++ "/dialog_" ++ r.dialog ++ "_turn_" ++ r.turn ++ "_"
    ++ r.speaker ++ ".wav"

/-- The positional-or-keyword parameters of
AgentF5TTS.generate_speech (besides self), from its def line. -/
def generateSpeechParams : List String :=
  ["text_file", "output_audio_file", "ref_audio", "convert_to_mp3"]

/-- The keyword arguments generate_conversation_audio in
conversational_agent.py passes to agent.generate_speech. -/
def generateConversationCallKwargs : List String :=
  ["text_file", "output_audio_file", "ref_audio", "ref_text", "convert_to_mp3"]

/-- Python raises TypeError at call time when a keyword argument does not
name a parameter of the callee. -/
def callRaisesTypeError : Bool :=
  generateConversationCallKwargs.any fun k => !(generateSpeechParams.contains k)

/-- Outcome of a generate_conversation_audio run: the per-row output files
produced before the run ended, and the uncaught exception that aborted it,
if any. -/
structure ConvResult : Type where
  outputs : List String
  error : Option PyError
deriving DecidableEq

/-- The row loop of generate_conversation_audio in
conversational_agent.py.  Each iteration whose generated count is within
the cap subscripts speaker_texts and speaker_voices with the row speaker
(KeyError aborts the run: the try block around the call has only a
finally clause and there is no other handler), then calls
agent.generate_speech with the keyword arguments listed above (TypeError
likewise aborts the run).  Were the call valid, the row output would be
recorded and the count incremented. -/
def convLoop (voices texts : List (String × String)) (outputDir : String) :
    List Row → Nat → List String → ConvResult
  | [], _, outs => ⟨outs.reverse, none⟩
  | row :: rest, count, outs =>
    if count ≤ 1000 then
      match lookupAssoc texts row.speaker with
      | none => ⟨outs.reverse, some .keyError⟩
      | some _ =>
        match lookupAssoc voices row.speaker with
        | none => ⟨outs.reverse, some .keyError⟩
        | some _ =>
          if callRaisesTypeError then ⟨outs.reverse, some .typeError⟩
          else convLoop voices texts outputDir rest (count + 1)
            (outputName outputDir row :: outs)
    else convLoop voices texts outputDir rest count outs

/-- generate_conversation_audio of conversational_agent.py, from the point
where the voice dictionaries have been assigned: iterate the dialog rows
with a generated count starting at zero. -/
def generateConversationAudio (voices texts : List (String × String))
    (outputDir : String) (rows : List Row) : ConvResult :=
  convLoop voices texts outputDir rows 0 []

/-! ## Helper lemmas -/

/-- If .wav does not occur as a substring, the fuelled replace is the
identity, for every fuel value. -/
theorem replaceWavMp3Aux_id : ∀ (fuel : Nat) (l : List Char),
    containsSub ".wav".data l = false → replaceWavMp3Aux fuel l = l := by
  intro fuel
  induction fuel with
  | zero => intro l _; rfl
  | succ n ih =>
    intro l h
    cases l with
    | nil => rfl
    | cons c rest =>
      rw [containsSub, Bool.or_eq_false_iff] at h
      rw [replaceWavMp3Aux, if_neg (by simp [h.1]), ih rest h.2]

/-- If .wav does not occur as a substring, replace is the identity. -/
theorem replaceWavMp3_id (l : List Char)
    (h : containsSub ".wav".data l = false) : replaceWavMp3 l = l :=
  replaceWavMp3Aux_id l.length l h

/-- The manifest written by the stitcher is exactly the incoming temp-file
list when that list is non-empty, and absent otherwise. -/
theorem combineAudioFiles_manifest (co mo : Bool) (tf : List String)
    (out : String) (cv : Bool) :
    (combineAudioFiles co mo tf out cv).manifest =
      if tf.isEmpty then none else some tf := by
  cases tf <;> cases co <;> cases cv <;> cases mo <;> simp [combineAudioFiles]

/-- Every index in an enumeration starting at i is at least i. -/
theorem enumFrom_fst_le {α : Type} : ∀ (l : List α) (i : Nat) (p : Nat × α),
    p ∈ List.enumFrom i l → i ≤ p.1 := by
  intro l
  induction l with
  | nil => intro i p hp; simp [List.enumFrom] at hp
  | cons a rest ih =>
    intro i p hp
    rw [List.enumFrom, List.mem_cons] at hp
    rcases hp with rfl | hp
    · exact Nat.le_refl i
    · exact Nat.le_of_succ_le (ih (i + 1) p hp)

/-- An enumeration is strictly increasing in its indices. -/
theorem enumFrom_pairwise {α : Type} : ∀ (l : List α) (i : Nat),
    (List.enumFrom i l).Pairwise fun p q => p.1 < q.1 := by
  intro l
  induction l with
  | nil => intro i; exact List.Pairwise.nil
  | cons a rest ih =>
    intro i
    refine List.Pairwise.cons ?_ (ih (i + 1))
    intro q hq
    exact Nat.lt_of_succ_le (enumFrom_fst_le rest (i + 1) q hq)

/-- Characterization of the temp files collected by the emotion loop:
exactly one file, named by its index, for each line whose reference
resolves and whose engine call succeeds, in traversal order. -/
theorem emoLoop_fst (env : EmoEnv) (out : String) : ∀ (lines : List String)
    (i : Nat),
    (emoLoop env out lines i).1 =
      ((List.enumFrom i lines).filter fun p => lineSucceeds env p.1 p.2).map
        fun p => tempName out p.1 := by
  intro lines
  induction lines with
  | nil => intro i; rfl
  | cons l rest ih =>
    intro i
    cases hr : refResolved env l with
    | none =>
      simp [emoLoop, emoStep, hr, lineSucceeds, List.enumFrom, ih (i + 1)]
    | some ra =>
      cases hok : env.inferOk i <;>
        simp [emoLoop, emoStep, hr, hok, lineSucceeds, List.enumFrom, ih (i + 1)]

/-- The emotion loop over an appended list is the loop over each part, the
second starting where the first left off. -/
theorem emoLoop_append (env : EmoEnv) (out : String) :
    ∀ (xs ys : List String) (i : Nat),
      emoLoop env out (xs ++ ys) i =
        ((emoLoop env out xs i).1 ++ (emoLoop env out ys (i + xs.length)).1,
         (emoLoop env out xs i).2 ++ (emoLoop env out ys (i + xs.length)).2) := by
  intro xs
  induction xs with
  | nil => intro ys i; simp [emoLoop]
  | cons x rest ih =>
    intro ys i
    have harith : i + 1 + rest.length = i + (rest.length + 1) := by omega
    simp only [List.cons_append, emoLoop, List.length_cons, List.append_eq]
    rw [ih ys (i + 1), harith]
    simp [List.append_assoc]

/-- The sleeps of the emotion loop: one sleep of the configured delay per
successful line. -/
theorem emoLoop_filter_sleep (env : EmoEnv) (out : String) :
    ∀ (lines : List String) (i : Nat),
      (emoLoop env out lines i).2.filter isSleep =
        List.replicate
          ((List.enumFrom i lines).filter fun p => lineSucceeds env p.1 p.2).length
          (Action.sleep env.delay) := by
  intro lines
  induction lines with
  | nil => intro i; rfl
  | cons l rest ih =>
    intro i
    cases hr : refResolved env l with
    | none =>
      simp [emoLoop, emoStep, hr, lineSucceeds, List.enumFrom, isSleep, ih (i + 1)]
    | some ra =>
      cases hok : env.inferOk i <;>
        simp [emoLoop, emoStep, hr, hok, lineSucceeds, List.enumFrom, isSleep,
          List.replicate_succ, ih (i + 1)]

/-- The plain loop never sleeps. -/
theorem plainLoop_filter_sleep (refAudio : String) (fileFound : String → Bool)
    (inferOk : Nat → Bool) (out : String) :
    ∀ (lines : List String) (i : Nat),
      (plainLoop refAudio fileFound inferOk out lines i).2.filter isSleep = [] := by
  intro lines
  induction lines with
  | nil => intro i; rfl
  | cons l rest ih =>
    intro i
    by_cases hr : (refAudio = "" || !fileFound refAudio) = true
    · simp [plainLoop, plainStep, hr, isSleep, ih (i + 1)]
    · cases hok : inferOk i <;>
        simp [plainLoop, plainStep, hr, hok, isSleep, ih (i + 1)]

/-! ## Claim theorems -/

/-- C1, counterexample.  With one temporary file, output o.wav, no mp3
conversion, and a concatenation step that raises, _combine_audio_files
removes nothing: the per-utterance temporary file and the manifest
file_list.txt both remain on disk, refuting the scoped-resource cleanup
guarantee. -/
theorem C1_counterexample :
    (combineAudioFiles false true ["o.wav_line1.wav"] "o.wav" false).removed
      = [] ∧
    (combineAudioFiles false true ["o.wav_line1.wav"] "o.wav" false).errorLog
      = some .combineError ∧
    (("o.wav_line1.wav" ∈
      (combineAudioFiles false true ["o.wav_line1.wav"] "o.wav" false).removed)
        = False) ∧
    (("file_list.txt" ∈
      (combineAudioFiles false true ["o.wav_line1.wav"] "o.wav" false).removed)
        = False) :=
  ⟨by decide, by decide, eq_false (by decide), eq_false (by decide)⟩

/-- C1, amended.  On a non-empty temp-file list, the per-utterance
temporary files and the manifest are deleted exactly when the
concatenation and, if requested, the transcode subprocess both succeed;
when either raises, the except clause logs the error and no file is
deleted. -/
theorem C1_amended (co mo cv : Bool) (t : String) (tf : List String)
    (out : String) :
    (combineAudioFiles co mo (t :: tf) out cv).removed =
      (if co && (!cv || mo) then (t :: tf) ++ ["file_list.txt"] else []) ∧
    (combineAudioFiles co mo (t :: tf) out cv).errorLog =
      (if co && (!cv || mo) then none else some .combineError) := by
  cases co <;> cases cv <;> cases mo <;> simp [combineAudioFiles]

/-- C2, counterexample.  The deduplication list(set(speakers)) has an
implementation-defined iteration order; the code never sorts it.  For the
possible order B, A, C of the speaker set containing A, B, C and the
two-element corpus r0, r1, speaker A (lexicographic ordinal 0) is
assigned r1, not corpus[0] = r0 as the claim requires. -/
theorem C2_counterexample :
    List.Perm ["B", "A", "C"] ["A", "B", "C"] ∧
    lookupAssoc
      (assignSpeakerVoices ["B", "A", "C"] [⟨"r0", "t0"⟩, ⟨"r1", "t1"⟩]).1 "A"
      = some "r1" ∧
    ((lookupAssoc
      (assignSpeakerVoices ["B", "A", "C"] [⟨"r0", "t0"⟩, ⟨"r1", "t1"⟩]).1 "A"
      = some "r0") = False) :=
  ⟨by decide, by decide, eq_false (by decide)⟩

/-- C2, amended.  With a non-empty corpus every distinct speaker receives
corpus[i mod len(corpus)] where i is the position of the speaker in the
iteration order of list(set(speakers)) actually produced by the runtime,
an order the code does not stabilize; both the voice and the text
dictionary are built this way. -/
theorem C2_amended (speakerIds : List String) (d : DatasetItem)
    (ds : List DatasetItem) :
    assignSpeakerVoices speakerIds (d :: ds) =
      (speakerIds.enum.map fun p =>
        (p.2, ((d :: ds).map DatasetItem.audio).getD (p.1 % (ds.length + 1)) ""),
       speakerIds.enum.map fun p =>
        (p.2, ((d :: ds).map DatasetItem.text).getD (p.1 % (ds.length + 1)) "")) := by
  simp [assignSpeakerVoices]

/-- C3.  generate_conversation_audio in conversational_agent.py passes the
keyword argument ref_text, which the signature of
AgentF5TTS.generate_speech does not accept, so on a non-empty dialog whose
first row has assigned voice and text entries the first iteration raises
TypeError; the surrounding try block has only a finally clause, so the
exception aborts the whole run with no output produced. -/
theorem C3 (voices texts : List (String × String)) (outputDir : String)
    (r : Row) (rows : List Row) (va ta : String)
    (hv : lookupAssoc voices r.speaker = some va)
    (ht : lookupAssoc texts r.speaker = some ta) :
    callRaisesTypeError = true ∧
    generateConversationAudio voices texts outputDir (r :: rows) =
      ⟨[], some .typeError⟩ := by
  refine ⟨rfl, ?_⟩
  simp [generateConversationAudio, convLoop, ht, hv, callRaisesTypeError,
    generateSpeechParams, generateConversationCallKwargs]

/-- C3, witness. -/
theorem C3_witness :
    callRaisesTypeError = true ∧
    generateConversationAudio [("A", "ra")] [("A", "ta")] "out"
      [⟨"A", "ola", "1", "1"⟩] = ⟨[], some .typeError⟩ :=
  C3 [("A", "ra")] [("A", "ta")] "out" ⟨"A", "ola", "1", "1"⟩ [] "ra" "ta"
    (by decide) (by decide)

/-- C4.  On a non-empty line list, generate_emotion_speech hands the
stitcher exactly the temporary files of the lines whose reference resolved
and whose engine call succeeded — one file per success, named by its line
index, none for failures — the filtered index sequence is strictly
ascending, and the concat manifest is exactly that file list. -/
theorem C4 (env : EmoEnv) (out : String) (cv co mo : Bool) (l : String)
    (lines : List String) :
    generateEmotionSpeech env (l :: lines) out cv co mo =
      some ⟨(emoLoop env out (l :: lines) 0).1,
        (emoLoop env out (l :: lines) 0).2,
        combineAudioFiles co mo (emoLoop env out (l :: lines) 0).1 out cv⟩ ∧
    (emoLoop env out (l :: lines) 0).1 =
      (((l :: lines).enumFrom 0).filter fun p =>
        lineSucceeds env p.1 p.2).map (fun p => tempName out p.1) ∧
    (((l :: lines).enumFrom 0).filter fun p =>
      lineSucceeds env p.1 p.2).Pairwise (fun p q => p.1 < q.1) ∧
    (combineAudioFiles co mo (emoLoop env out (l :: lines) 0).1 out cv).manifest =
      (if (emoLoop env out (l :: lines) 0).1.isEmpty then none
       else some (emoLoop env out (l :: lines) 0).1) := by
  refine ⟨by simp [generateEmotionSpeech], emoLoop_fst env out (l :: lines) 0,
    ?_, combineAudioFiles_manifest co mo _ out cv⟩
  exact List.Pairwise.filter _ (enumFrom_pairwise (l :: lines) 0)

/-- C5.  A line that fails — unresolved reference or a raising engine
call — contributes no temporary file, and the loop over any batch
containing it still processes every preceding and every following line
exactly as it would alone: a single failing line never aborts the batch. -/
theorem C5 (env : EmoEnv) (out : String) (xs ys : List String) (l : String)
    (h : lineSucceeds env xs.length l = false) :
    (emoStep env out xs.length l).1 = [] ∧
    (emoLoop env out (xs ++ l :: ys) 0).1 =
      (emoLoop env out xs 0).1 ++ (emoLoop env out ys (xs.length + 1)).1 ∧
    (emoLoop env out (xs ++ l :: ys) 0).2 =
      (emoLoop env out xs 0).2 ++ (emoStep env out xs.length l).2 ++
        (emoLoop env out ys (xs.length + 1)).2 := by
  have hstep : (emoStep env out xs.length l).1 = [] := by
    rw [lineSucceeds] at h
    cases hr : refResolved env l with
    | none => simp [emoStep, hr]
    | some ra =>
      rw [hr] at h
      simp only [Option.isSome_some, Bool.true_and] at h
      simp [emoStep, hr, h]

  refine ⟨hstep, ?_, ?_⟩
  · rw [emoLoop_append env out xs (l :: ys) 0]
    simp only [emoLoop, Nat.zero_add, hstep, List.nil_append]
  · rw [emoLoop_append env out xs (l :: ys) 0]
    simp only [emoLoop, Nat.zero_add, List.append_assoc]

/-- C5, witness: an environment with an empty reference dictionary makes
every line fail, and the loop on a two-line batch whose first line fails
still processes the second. -/
theorem C5_witness :
    (emoStep ⟨[], fun _ => true, fun _ => true, 0⟩ "o.wav"
      (List.length ([] : List String)) "ola").1 = [] ∧
    (emoLoop ⟨[], fun _ => true, fun _ => true, 0⟩ "o.wav"
      ([] ++ "ola" :: ["oi"]) 0).1 =
      (emoLoop ⟨[], fun _ => true, fun _ => true, 0⟩ "o.wav" [] 0).1 ++
        (emoLoop ⟨[], fun _ => true, fun _ => true, 0⟩ "o.wav" ["oi"]
          (List.length ([] : List String) + 1)).1 ∧
    (emoLoop ⟨[], fun _ => true, fun _ => true, 0⟩ "o.wav"
      ([] ++ "ola" :: ["oi"]) 0).2 =
      (emoLoop ⟨[], fun _ => true, fun _ => true, 0⟩ "o.wav" [] 0).2 ++
        (emoStep ⟨[], fun _ => true, fun _ => true, 0⟩ "o.wav"
          (List.length ([] : List String)) "ola").2 ++
        (emoLoop ⟨[], fun _ => true, fun _ => true, 0⟩ "o.wav" ["oi"]
          (List.length ([] : List String) + 1)).2 :=
  C5 ⟨[], fun _ => true, fun _ => true, 0⟩ "o.wav" [] ["oi"] "ola" (by decide)

/-- C6.  With an empty temp-file list the stitcher logs the no-segments
error and returns at once: no manifest is written, no subprocess runs, no
file is removed, and no output file is produced. -/
theorem C6 (co mo : Bool) (out : String) (cv : Bool) :
    combineAudioFiles co mo [] out cv =
      ⟨none, [], [], some .noSegments, false⟩ := rfl

/-- C7, counterexample.  With an empty reference corpus
assign_speaker_voices assigns nothing, and on a two-row dialog the first
subscript of speaker_texts raises an uncaught KeyError: the run aborts
with no outputs and the second utterance is never reached, refuting the
recoverable per-utterance skip. -/
theorem C7_counterexample :
    assignSpeakerVoices ["A", "B"] [] = ([], []) ∧
    generateConversationAudio [] [] "out"
      [⟨"A", "ola", "1", "1"⟩, ⟨"B", "oi", "1", "2"⟩] =
      ⟨[], some .keyError⟩ ∧
    (((generateConversationAudio [] [] "out"
      [⟨"A", "ola", "1", "1"⟩, ⟨"B", "oi", "1", "2"⟩]).error = none) = False) :=
  ⟨by decide, by decide, eq_false (by decide)⟩

/-- C7, amended.  If the reference corpus is empty, assign_speaker_voices
leaves both dictionaries empty, and on any non-empty dialog the first
iteration of generate_conversation_audio raises an uncaught KeyError when
subscripting speaker_texts: the whole run aborts with no audio produced —
the failure is fatal, not a recoverable per-utterance skip. -/
theorem C7_amended (sids : List String) (outputDir : String) (r : Row)
    (rows : List Row) :
    assignSpeakerVoices sids [] = ([], []) ∧
    generateConversationAudio [] [] outputDir (r :: rows) =
      ⟨[], some .keyError⟩ := by
  exact ⟨rfl, by simp [generateConversationAudio, convLoop, lookupAssoc]⟩

/-- C8, counterexample.  The agent is configured with delay 6 (greater
than zero), the plain generate_speech path performs two consecutive engine
invocations, and its trace contains no time.sleep call at all: the pause
contract does not hold on the plain path. -/
theorem C8_counterexample :
    0 < (6 : Nat) ∧
    Option.map (fun r => sleepCount r.trace)
      (generateSpeech ⟨6⟩ "ref.wav" (fun _ => true) (fun _ => true)
        ["ola", "oi"] "o.wav" false true true) = some 0 ∧
    Option.map (fun r => inferCount r.trace)
      (generateSpeech ⟨6⟩ "ref.wav" (fun _ => true) (fun _ => true)
        ["ola", "oi"] "o.wav" false true true) = some 2 :=
  ⟨by decide, by decide, by decide⟩

/-- C8, amended.  The emotion-tagged path sleeps for the configured delay
exactly once after each successful engine call (and never after a failed
one), while the plain path never sleeps, whatever the configured delay. -/
theorem C8_amended :
    (∀ (env : EmoEnv) (out : String) (lines : List String) (i : Nat),
      (emoLoop env out lines i).2.filter isSleep =
        List.replicate
          ((List.enumFrom i lines).filter fun p =>
            lineSucceeds env p.1 p.2).length
          (Action.sleep env.delay)) ∧
    (∀ (refAudio : String) (fileFound : String → Bool)
      (inferOk : Nat → Bool) (out : String) (lines : List String) (i : Nat),
      (plainLoop refAudio fileFound inferOk out lines i).2.filter isSleep = []) :=
  ⟨fun env out lines i => emoLoop_filter_sleep env out lines i,
   fun ra ff ok out lines i => plainLoop_filter_sleep ra ff ok out lines i⟩

/-- C9.  Tag parsing: the tagged line yields speaker Bob, emotion sad, and
the tag-stripped text Hello there; the untagged line Hi yields the
defaults speaker1 and neutral with the text unchanged. -/
theorem C9 :
    determineSpeakerEmotion "[speaker:Bob, emotion:sad] Hello there" =
      ("Bob", "sad") ∧
    subSpeakerTag "[speaker:Bob, emotion:sad] Hello there" = "Hello there" ∧
    determineSpeakerEmotion "Hi" = ("speaker1", "neutral") ∧
    subSpeakerTag "Hi" = "Hi" := by
  refine ⟨by decide, by decide, by decide, by decide⟩

/-- C10.  When mp3 conversion is requested and the output name does not
contain .wav, str.replace leaves the name unchanged, so the transcode
ffmpeg invocation receives the same path as source and destination. -/
theorem C10 (mo : Bool) (t : String) (tf : List String) (out : String)
    (h : containsSub ".wav".data out.data = false) :
    (combineAudioFiles true mo (t :: tf) out true).cmds =
      [Cmd.ffmpegConcat "file_list.txt" out, Cmd.ffmpegMp3 out out] := by
  have hr : replaceWavMp3 out.data = out.data := replaceWavMp3_id out.data h
  cases out with
  | mk data => cases mo <;> simp [combineAudioFiles, hr]

/-- C10, witness: output name final.ogg does not contain .wav, and the
transcode command has final.ogg as both source and destination. -/
theorem C10_witness :
    containsSub ".wav".data "final.ogg".data = false ∧
    (combineAudioFiles true true ["x.wav"] "final.ogg" true).cmds =
      [Cmd.ffmpegConcat "file_list.txt" "final.ogg",
       Cmd.ffmpegMp3 "final.ogg" "final.ogg"] :=
  ⟨by decide, C10 true "x.wav" [] "final.ogg" (by decide)⟩

end F5Conv
